import Mathlib

set_option maxRecDepth 100000

attribute [local semireducible] Rat.add Rat.mul Rat.sub Rat.inv Rat.ofScientific

/-!
Shallow embedding of `adb_battery_logger` (files `run_power_logger.py` and
`run_power_lgger_diff_csv.py`) and proofs about the claims on its
specification.

Modelling conventions:
* Python machine floats are modelled as exact rationals (`ℚ`); Python's
  banker's rounding `round(x, n)` and fixed-point formatting `f"{x:.{n}f}"`
  are modelled by round-half-even on the rational value.
* Python `None` and the string `'N/A'` both denote an unavailable value and
  are modelled with `Option.none` where the structure of the code allows it.
* `int(...)` on a stripped decimal string is modelled by `pyToInt`
  (Python additionally accepts underscores between digits and surrounding
  whitespace; no claim depends on such inputs).
* string manipulation is implemented over `List Char` by structural
  recursion, mirroring the Python methods used by the source
  (`strip`, `split`, `splitlines`, `lower`, `replace`, `startswith`).
-/

/-! ## Python string primitives -/

/-- Python `str.split(sep)` for a one-character separator (used with `':'`) and
`str.splitlines` (used via `'\n'`). -/
def splitOnChar (c : Char) : List Char → List (List Char)
  | [] => [[]]
  | x :: xs =>
    if x = c then [] :: splitOnChar c xs
    else
      match splitOnChar c xs with
      | [] => [[x]]
      | h :: t => (x :: h) :: t

/-- Split at every character satisfying `p` (empties kept). -/
def splitPredChar (p : Char → Bool) : List Char → List (List Char)
  | [] => [[]]
  | x :: xs =>
    if p x then [] :: splitPredChar p xs
    else
      match splitPredChar p xs with
      | [] => [[x]]
      | h :: t => (x :: h) :: t

def pySplitLines (s : String) : List String := (splitOnChar '\n' s.toList).map String.mk

def pySplitColon (s : String) : List String := (splitOnChar ':' s.toList).map String.mk

/-- Python `str.split()`: runs of whitespace, empties dropped. -/
def pySplitWs (s : String) : List String :=
  ((splitPredChar Char.isWhitespace s.toList).map String.mk).filter (· ≠ "")

/-- Python `str.strip()`. -/
def pyTrim (s : String) : String :=
  String.mk (((s.toList.dropWhile Char.isWhitespace).reverse.dropWhile
    Char.isWhitespace).reverse)

/-- Python `str.lower()` (ASCII, which is all the sources produce). -/
def pyLower (s : String) : String := String.mk (s.toList.map Char.toLower)

def pyStartsWith (s pre : String) : Bool := pre.toList.isPrefixOf s.toList

/-- Non-overlapping left-to-right replacement, fuelled by the input length
so that the recursion is structural. -/
def replaceAux (pat repl : List Char) : ℕ → List Char → List Char
  | _, [] => []
  | 0, l => l
  | fuel + 1, x :: xs =>
    if pat.isPrefixOf (x :: xs) then
      repl ++ replaceAux pat repl fuel ((x :: xs).drop pat.length)
    else x :: replaceAux pat repl fuel xs

/-- Python `str.replace(pat, repl)` for nonempty `pat`. -/
def pyReplace (s pat repl : String) : String :=
  String.mk (replaceAux pat.toList repl.toList s.toList.length s.toList)

def digitsVal (cs : List Char) : ℕ :=
  cs.foldl (fun a c => a * 10 + (c.toNat - Char.toNat '0')) 0

/-- Python `int(...)` on the stripped strings the source feeds it: an
optional sign followed by decimal digits (underscores between digits are not
modelled). `none` models a raised `ValueError`. -/
def pyToInt (s : String) : Option ℤ :=
  match s.toList with
  | [] => none
  | '-' :: rest =>
    if rest.isEmpty then none
    else if rest.all Char.isDigit then some (-(digitsVal rest : ℤ)) else none
  | '+' :: rest =>
    if rest.isEmpty then none
    else if rest.all Char.isDigit then some ((digitsVal rest : ℤ)) else none
  | cs => if cs.all Char.isDigit then some ((digitsVal cs : ℤ)) else none

/-- Round-half-even to an integer, as Python's `round` does on floats
(modelled on the exact rational value). `Rat.floor` is used rather than
`⌊·⌋` so that the definition evaluates inside the kernel. -/
def rhe (q : ℚ) : ℤ :=
  if q - (q.floor : ℚ) < 1/2 then q.floor
  else if (1 : ℚ)/2 < q - (q.floor : ℚ) then q.floor + 1
  else if q.floor % 2 = 0 then q.floor else q.floor + 1

/-- Python `round(q, prec)` on the exact rational value. -/
def roundTo (prec : ℕ) (q : ℚ) : ℚ :=
  (rhe (q * 10 ^ prec) : ℚ) / 10 ^ prec

/-! ## CPU reader (`run_power_logger.py`, `get_cpu_usage`, lines 172-247)

`/proc/stat` cumulative tick counts in the fixed order of `CPU_FIELDS`:
user, nice, system, idle, iowait, irq, softirq, steal, guest, guest_nice.
Fields beyond the parsed list length are 0, and the running total sums the
parsed values (equivalently, all ten field values, since missing ones are 0
and extra parsed values beyond the tenth are ignored by both). -/
structure CpuStatData where
  user : ℤ
  nice : ℤ
  system : ℤ
  idle : ℤ
  iowait : ℤ
  irq : ℤ
  softirq : ℤ
  steal : ℤ
  guest : ℤ
  guest_nice : ℤ
  total_ticks : ℤ
  deriving DecidableEq, Repr

def mk_cpu_stat_data (raw : List ℤ) : CpuStatData where
  user := raw.getD 0 0
  nice := raw.getD 1 0
  system := raw.getD 2 0
  idle := raw.getD 3 0
  iowait := raw.getD 4 0
  irq := raw.getD 5 0
  softirq := raw.getD 6 0
  steal := raw.getD 7 0
  guest := raw.getD 8 0
  guest_nice := raw.getD 9 0
  total_ticks := raw.getD 0 0 + raw.getD 1 0 + raw.getD 2 0 + raw.getD 3 0 +
    raw.getD 4 0 + raw.getD 5 0 + raw.getD 6 0 + raw.getD 7 0 +
    raw.getD 8 0 + raw.getD 9 0

/-- The `cpu_percentages` dictionary: `none` models both an explicit `'N/A'`
entry and an absent key. -/
structure CpuPercentages where
  total : Option ℚ
  user : Option ℚ
  nice : Option ℚ
  system : Option ℚ
  idle : Option ℚ
  iowait : Option ℚ
  irq : Option ℚ
  sirq : Option ℚ
  softirq : Option ℚ
  steal : Option ℚ
  guest : Option ℚ
  guest_nice : Option ℚ
  deriving DecidableEq, Repr

def cpuNA : CpuPercentages :=
  ⟨none, none, none, none, none, none, none, none, none, none, none, none⟩

/-- The percentage `(delta / delta_total) * 100.0`. -/
def pctQ (d dt : ℤ) : ℚ := ((d : ℚ) / (dt : ℚ)) * 100

/-- Percentage computation of `get_cpu_usage`: with no previous snapshot
everything stays `'N/A'`; with one, and a positive total-tick delta, each
field is `round((delta/delta_total)*100, 1)`, `total` is
`round(100 - idle_pct, 1)` (the `active_delta_sum` fallback in the source is
unreachable because `idle` was just assigned a number in the same branch),
and `sirq` is copied from `softirq`. -/
def compute_cpu_percentages : Option CpuStatData → CpuStatData → CpuPercentages
  | none, _ => cpuNA
  | some p, c =>
    if 0 < c.total_ticks - p.total_ticks then
      { user := some (roundTo 1 (pctQ (c.user - p.user) (c.total_ticks - p.total_ticks)))
        nice := some (roundTo 1 (pctQ (c.nice - p.nice) (c.total_ticks - p.total_ticks)))
        system := some (roundTo 1 (pctQ (c.system - p.system) (c.total_ticks - p.total_ticks)))
        idle := some (roundTo 1 (pctQ (c.idle - p.idle) (c.total_ticks - p.total_ticks)))
        iowait := some (roundTo 1 (pctQ (c.iowait - p.iowait) (c.total_ticks - p.total_ticks)))
        irq := some (roundTo 1 (pctQ (c.irq - p.irq) (c.total_ticks - p.total_ticks)))
        softirq := some (roundTo 1 (pctQ (c.softirq - p.softirq) (c.total_ticks - p.total_ticks)))
        steal := some (roundTo 1 (pctQ (c.steal - p.steal) (c.total_ticks - p.total_ticks)))
        guest := some (roundTo 1 (pctQ (c.guest - p.guest) (c.total_ticks - p.total_ticks)))
        guest_nice :=
          some (roundTo 1 (pctQ (c.guest_nice - p.guest_nice) (c.total_ticks - p.total_ticks)))
        sirq := some (roundTo 1 (pctQ (c.softirq - p.softirq) (c.total_ticks - p.total_ticks)))
        total :=
          some (roundTo 1
            (100 - roundTo 1 (pctQ (c.idle - p.idle) (c.total_ticks - p.total_ticks)))) }
    else cpuNA

/-- The reader `get_cpu_usage`, from the raw `cat /proc/stat` output
(`none` models a failed adb command, as does empty output after stripping).
Returns the percentages (or `none` on a read/parse failure) and the stat data
to store for the next tick (on failure, the previous one). -/
def get_cpu_usage (previous : Option CpuStatData) (output : Option String) :
    Option CpuPercentages × Option CpuStatData :=
  match output with
  | none => (none, previous)
  | some out =>
    if out = "" then (none, previous)
    else
      match pySplitLines out with
      | [] => (none, previous)
      | l0 :: _ =>
        if ¬ pyStartsWith l0 "cpu " then (none, previous)
        else
          match ((pySplitWs l0).drop 1).mapM pyToInt with
          | none => (none, previous)
          | some raw =>
            let cur := mk_cpu_stat_data raw
            (some (compute_cpu_percentages previous cur), some cur)

/-! ## Python dictionaries as association lists

Insertion-ordered key/value lists with last-write-wins update, modelling the
`dict` objects used by the readers. -/

def lookupAssoc {α : Type _} : List (String × α) → String → Option α
  | [], _ => none
  | (k', v) :: rest, k => if k' = k then some v else lookupAssoc rest k

def containsKey {α : Type _} : List (String × α) → String → Bool
  | [], _ => false
  | (k', _) :: rest, k => k' = k || containsKey rest k

/-- Dictionary assignment `d[k] = v`: overwrite in place when the key exists, else append.
(Dictionaries built through this function never hold duplicate keys, so
replacing the first occurrence is the dict assignment.) -/
def updateAssoc {α : Type _} : List (String × α) → String → α → List (String × α)
  | [], k, v => [(k, v)]
  | (k', w) :: rest, k, v =>
    if k' = k then (k, v) :: rest else (k', w) :: updateAssoc rest k v

/-! ## Memory reader (`run_power_logger.py`, `get_memory_usage`, lines 257-338) -/

structure MemData where
  total_mb : Option ℚ
  used_mb : Option ℚ
  free_mb : Option ℚ
  available_mb : Option ℚ
  buffers_mb : Option ℚ
  cached_mb : Option ℚ
  swap_total_mb : Option ℚ
  swap_used_mb : Option ℚ
  deriving DecidableEq, Repr

def memNA : MemData := ⟨none, none, none, none, none, none, none, none⟩

/-- Conversion `kb_to_mb`: `round(kb / 1024.0, 0)` when the input is a number, `'N/A'`
otherwise. -/
def kb_to_mb (kb : Option ℤ) : Option ℚ :=
  kb.map (fun k => roundTo 0 ((k : ℚ) / 1024))

/-- One line of `/proc/meminfo`: split on `':'`, require exactly two parts,
strip the value, lowercase it, drop a `' kb'` suffix and parse an integer;
lines that do not fit are ignored. -/
def parse_meminfo_line (acc : List (String × ℤ)) (line : String) :
    List (String × ℤ) :=
  match pySplitColon line with
  | [k, v] =>
    match pyToInt (pyReplace (pyLower (pyTrim v)) " kb" "") with
    | some n => updateAssoc acc (pyTrim k) n
    | none => acc
  | _ => acc

def parse_meminfo (out : String) : List (String × ℤ) :=
  (pySplitLines out).foldl parse_meminfo_line []

/-- The arithmetic part of `get_memory_usage`, written over the results of the
seven `meminfo.get(...)` lookups (MemTotal, MemFree, MemAvailable, Buffers,
Cached, SwapTotal, SwapFree). -/
def mem_from_lookups (total free available buffers cached swapTotal swapFree :
    Option ℤ) : MemData :=
  { total_mb := kb_to_mb total
    free_mb := kb_to_mb free
    buffers_mb := kb_to_mb buffers
    cached_mb := kb_to_mb cached
    available_mb :=
      match available with
      | some a => kb_to_mb (some a)
      | none =>
        match free, buffers, cached with
        | some f, some b, some c => kb_to_mb (some (f + b + c))
        | _, _, _ => none
    used_mb :=
      match total with
      | some t =>
        match available with
        | some a => kb_to_mb (some (t - a))
        | none =>
          match free, buffers, cached with
          | some f, some b, some c => kb_to_mb (some (t - f - b - c))
          | _, _, _ => none
      | none => none
    swap_total_mb := kb_to_mb swapTotal
    swap_used_mb :=
      match swapTotal, swapFree with
      | some t, some f =>
        if 0 < t then kb_to_mb (some (t - f))
        else if t = 0 then some 0 else none
      | some t, none => if t = 0 then some 0 else none
      | none, _ => none }

/-- The reader `get_memory_usage`, from the raw `cat /proc/meminfo` output (`none` models
a failed adb command; empty output is falsy in the source). -/
def get_memory_usage (output : Option String) : MemData :=
  match output with
  | none => memNA
  | some out =>
    if out = "" then memNA
    else
      let mi := parse_meminfo out
      mem_from_lookups (lookupAssoc mi "MemTotal") (lookupAssoc mi "MemFree")
        (lookupAssoc mi "MemAvailable") (lookupAssoc mi "Buffers")
        (lookupAssoc mi "Cached") (lookupAssoc mi "SwapTotal")
        (lookupAssoc mi "SwapFree")

/-! ## Thermal parser (`run_power_logger.py`, `parse_temperature_output`,
lines 113-167)

The record regex is `Temperature\x7b.*?mValue=([\d.-]+).*?mName=([^,\x7d]+)`
used with `re.search`.  It is modelled by leftmost-first scanning: the suffix
after the first `Temperature{`, then the first `mValue=` followed by at least
one `[0-9.-]` character (greedy run), then the first `mName=` followed by at
least one non-`,`/`}` character (greedy run).  Exotic lines on which Python's
engine would additionally backtrack across stages (several partial record
fragments on one line) are not modelled; no claim depends on such inputs. -/

def valClass (c : Char) : Bool := c.isDigit || c = '.' || c = '-'

def nameClass (c : Char) : Bool := !(c = ',' || c = '\x7d')

/-- Suffix immediately after the first occurrence of `key`. -/
def dropAfterKey (key : List Char) : List Char → Option (List Char)
  | [] => if key = [] then some [] else none
  | c :: cs =>
    if key.isPrefixOf (c :: cs) then some ((c :: cs).drop key.length)
    else dropAfterKey key cs

/-- First occurrence of `key` that is followed by at least one `cls`
character; returns the greedy run and the rest after it. -/
def scanKeyRun (key : List Char) (cls : Char → Bool) :
    List Char → Option (List Char × List Char)
  | [] => none
  | c :: cs =>
    if key.isPrefixOf (c :: cs) then
      let rest := (c :: cs).drop key.length
      let run := rest.takeWhile cls
      if run.isEmpty then scanKeyRun key cls cs
      else some (run, rest.drop run.length)
    else scanKeyRun key cls cs

/-- Model of `temp_regex.search(line)`: the captured `mValue` and `mName` groups. -/
def temp_regex_search (line : String) : Option (String × String) :=
  match dropAfterKey "Temperature\x7b".toList line.toList with
  | none => none
  | some rest1 =>
    match scanKeyRun "mValue=".toList valClass rest1 with
    | none => none
    | some (valRun, rest2) =>
      match scanKeyRun "mName=".toList nameClass rest2 with
      | none => none
      | some (nameRun, _) => some (String.mk valRun, String.mk nameRun)

/-- Python `float(...)` restricted to what the `[\d.-]+` capture can produce:
an optional leading minus, digits and at most one decimal point, at least one
digit (exponents, `inf`/`nan`, underscores and `+` cannot appear in the
capture). Returns `none` exactly when `float` raises `ValueError`. -/
def parse_py_float (s : String) : Option ℚ :=
  let cs := s.toList
  let body := if cs.headD ' ' = '-' then cs.tail else cs
  let neg : Bool := cs.headD ' ' = '-'
  if body.any (fun c => !(c.isDigit || c = '.')) then none
  else if !(body.any Char.isDigit) then none
  else
    match body.splitOn '.' with
    | [ip] =>
      let v : ℚ := (digitsVal ip : ℚ)
      some (if neg then -v else v)
    | [ip, fp] =>
      let v : ℚ := (digitsVal ip : ℚ) + (digitsVal fp : ℚ) / 10 ^ fp.length
      some (if neg then -v else v)
    | _ => none

/-- Name cleaning: `match.group(2).strip().replace(" ", "_").replace('"','')`. -/
def clean_sensor_name (s : String) : String :=
  pyReplace (pyReplace (pyTrim s) " " "_") "\"" ""

/-- Scanner state of `parse_temperature_output`: the two section flags and
the two per-section dictionaries. -/
structure ThermScan where
  parsingCached : Bool
  parsingCurrent : Bool
  curTemps : List (String × ℚ)
  cachedTemps : List (String × ℚ)
  deriving DecidableEq, Repr

/-- One iteration of the line loop of `parse_temperature_output`
(`line = line.strip()` is inlined as `pyTrim rawLine`). -/
def therm_step (st : ThermScan) (rawLine : String) : ThermScan :=
  if pyTrim rawLine = "Cached temperatures:" then
    { st with parsingCached := true, parsingCurrent := false }
  else if pyTrim rawLine = "Current temperatures from HAL:" then
    { st with parsingCurrent := true, parsingCached := false }
  else if pyTrim rawLine = "Sensor Status:" then
    { st with parsingCached := false, parsingCurrent := false }
  else if st.parsingCurrent || st.parsingCached then
    match temp_regex_search (pyTrim rawLine) with
    | some (valStr, nameStr) =>
      match parse_py_float valStr with
      | some v =>
        if st.parsingCurrent then
          { st with curTemps := updateAssoc st.curTemps (clean_sensor_name nameStr) v }
        else if (lookupAssoc st.curTemps (clean_sensor_name nameStr)).isNone then
          { st with cachedTemps := updateAssoc st.cachedTemps (clean_sensor_name nameStr) v }
        else st
      | none => st
    | none => st
  else st

def therm_scan_lines (lines : List String) : ThermScan :=
  lines.foldl therm_step ⟨false, false, [], []⟩

/-- Dictionary merge `base.update(add)` on dictionaries-as-lists. -/
def foldUpdate (base add : List (String × ℚ)) : List (String × ℚ) :=
  add.foldl (fun acc p => updateAssoc acc p.1 p.2) base

/-- The parser `parse_temperature_output`: scan all lines, then merge with the
"Current HAL" section taking priority (`temperatures.update(cached)` then
`temperatures.update(current)`). -/
def parse_temperature_output (output : Option String) : List (String × ℚ) :=
  match output with
  | none => []
  | some out =>
    if out = "" then []
    else
      let st := therm_scan_lines (pySplitLines out)
      foldUpdate (foldUpdate [] st.cachedTemps) st.curTemps

/-- A thermal dump whose cached section comes first and holds a different
value (12.0) for the sensor that the Current-HAL section reports as 37.5. -/
def thermDumpBothSections : String :=
  "Cached temperatures:\n\tTemperature\x7bmValue=12.0, mType=3, mName=battery, mStatus=0\x7d\nCurrent temperatures from HAL:\n\tTemperature\x7bmValue=37.5, mType=3, mName=battery, mStatus=0\x7d"

/-- A thermal dump whose Current-HAL section holds a record, then a line that
does not match the record shape, then another record. -/
def thermDumpGarbageMiddle : String :=
  "Current temperatures from HAL:\n\tTemperature\x7bmValue=30.5, mType=3, mName=battery, mStatus=0\x7d\nsome unrelated diagnostic line\n\tTemperature\x7bmValue=45.0, mType=0, mName=cpu, mStatus=0\x7d"

/-! ## Presenter and CSV serialization (`format_value_for_display`, lines
495-560, and the per-value part of `log_data_to_csv`, lines 708-741) -/

/-- A value as stored in the `data` dictionary: Python `None`, an `int` or
`float` (modelled as an exact rational with an `isInt` tag, since the CSV
writer treats only floats specially), or a string such as `'N/A'` or
`'57%'`. The `str(...)` of a genuine float is not modelled exactly (Python
uses shortest-roundtrip repr); no branch a theorem relies on uses it. -/
inductive PyVal
  | vNone
  | vNum (q : ℚ) (isInt : Bool)
  | vStr (s : String)
  deriving DecidableEq, Repr

/-- The unavailability test `value is None or value == 'N/A'`. -/
def isNAVal : PyVal → Bool
  | PyVal.vNone => true
  | PyVal.vStr s => s = "N/A"
  | _ => false

/-- Substring test, `pat in s` in Python. -/
def strContains (s pat : String) : Bool :=
  (s.toList.tails).any (fun t => pat.toList.isPrefixOf t)

/-- Right alignment `f"{s:>{w}}"`. -/
def rightAlign (s : String) (w : ℕ) : String :=
  if s.length < w then String.mk (List.replicate (w - s.length) ' ') ++ s else s

/-- Left alignment `f"{s:<{w}}"`. -/
def leftAlign (s : String) (w : ℕ) : String :=
  if s.length < w then s ++ String.mk (List.replicate (w - s.length) ' ') else s

/-- Fixed-point formatting `f"{q:.{prec}f}"` on the exact rational value (round half even; the sign
comes from the value so that `-0.4` prints as `-0`). -/
def formatFixed (prec : ℕ) (q : ℚ) : String :=
  let n := rhe (q * 10 ^ prec)
  let m := n.natAbs
  let signStr := if q < 0 then "-" else ""
  if prec = 0 then signStr ++ toString (m / 10 ^ prec)
  else
    let fracStr := toString (m % 10 ^ prec)
    signStr ++ toString (m / 10 ^ prec) ++ "." ++
      String.mk (List.replicate (prec - fracStr.length) '0') ++ fracStr

/-- Python `str(...)` on the modelled values.  For floats only the integral
case is rendered exactly; a non-integral float uses a fixed 6-decimal
placeholder (shortest-roundtrip repr is not modelled; no theorem depends on
this branch). -/
def pyStr : PyVal → String
  | PyVal.vNone => "None"
  | PyVal.vNum q true => toString q.num
  | PyVal.vNum q false =>
    if q.den = 1 then toString q.num ++ ".0" else formatFixed 6 q
  | PyVal.vStr s => s

/-- The `widths` table shared by `build_display_header` and
`format_value_for_display`. -/
def widthsTable : String → Option ℕ
  | "Timestamp" => some 23
  | "Current (mA)" => some 12
  | "Avg Current (mA)" => some 16
  | "Voltage (mV)" => some 12
  | "Power (W)" => some 11
  | "Capacity (%)" => some 10
  | "Battery Temp (°C)" => some 15
  | "ΔCurrent (mA)" => some 14
  | "ΔAvg Current (mA)" => some 18
  | "ΔVoltage (mV)" => some 14
  | "ΔPower (W)" => some 12
  | "CPU Total (%)" => some 11
  | "CPU User (%)" => some 10
  | "CPU System (%)" => some 12
  | "CPU Nice (%)" => some 10
  | "CPU Idle (%)" => some 10
  | "CPU Iowait (%)" => some 12
  | "CPU Irq (%)" => some 9
  | "CPU Sirq (%)" => some 10
  | "Memory Total (MB)" => some 15
  | "Memory Used (MB)" => some 14
  | "Memory Free (MB)" => some 14
  | "Memory Available (MB)" => some 18
  | "Memory Buffers (MB)" => some 16
  | "Memory Cached (MB)" => some 15
  | "Swap Total (MB)" => some 13
  | "Swap Used (MB)" => some 12
  | "DEFAULT_THERMAL" => some 18
  | _ => none

/-- Width lookup `widths.get(col_name, default_w)` with
`default_w = 18 if len(col_name) < 16 else len(col_name) + 2`. -/
def widthFor (col : String) : ℕ :=
  match widthsTable col with
  | some w => w
  | none => if col.length < 18 - 2 then 18 else col.length + 2

/-- The `precision_map` of `format_value_for_display`. -/
def precisionTable : String → Option ℕ
  | "Current (mA)" => some 1
  | "Avg Current (mA)" => some 1
  | "Voltage (mV)" => some 1
  | "Power (W)" => some 3
  | "Battery Temp (°C)" => some 1
  | "ΔCurrent (mA)" => some 1
  | "ΔAvg Current (mA)" => some 1
  | "ΔVoltage (mV)" => some 1
  | "ΔPower (W)" => some 3
  | "Memory Total (MB)" => some 0
  | "Memory Used (MB)" => some 0
  | "Memory Free (MB)" => some 0
  | "Memory Available (MB)" => some 0
  | "Memory Buffers (MB)" => some 0
  | "Memory Cached (MB)" => some 0
  | "Swap Total (MB)" => some 0
  | "Swap Used (MB)" => some 0
  | "CPU" => some 1
  | "DEFAULT_THERMAL" => some 1
  | _ => none

/-- Console rendering `format_value_for_display(value, col_name)`: `None`/`'N/A'` render as a
right-aligned `N/A`; the timestamp is left-aligned; numbers get the
column precision, deltas a leading `+` when positive; other strings pass
through; everything is right-aligned to the column width. -/
def format_value_for_display (value : PyVal) (colName : String) : String :=
  if isNAVal value then rightAlign "N/A" (widthFor colName)
  else if colName = "Timestamp" then leftAlign (pyStr value) (widthFor colName)
  else
    let prec : ℕ :=
      match precisionTable colName with
      | some p => p
      | none =>
        if strContains colName "CPU" && strContains colName "(%)" then 1
        else if strContains colName "Memory" && strContains colName "(MB)" then 0
        else
          match value with
          | PyVal.vNum _ false => 1
          | _ => 0
    match value with
    | PyVal.vNum q _ =>
      rightAlign
        ((if pyStartsWith colName "Δ" && decide (0 < q) then "+" else "") ++ formatFixed prec q)
        (widthFor colName)
    | v => rightAlign (pyStr v) (widthFor colName)

/-- The per-value serialization of `log_data_to_csv`: `None`/`'N/A'` become
the literal `N/A`; floats get a column-dependent precision (integral floats
at precision 0 drop the decimal point); strings holding `%` lose it; other
values go through `str(...)`. -/
def csv_serialize_value (value : PyVal) (colName : String) : String :=
  if isNAVal value then "N/A"
  else
    match value with
    | PyVal.vNum q false =>
      let prec : ℕ :=
        if strContains colName "Power" then 3
        else if strContains colName "Temp" || strContains colName "CPU" then 1
        else if strContains colName "Memory" && strContains colName "(MB)" then 0
        else 1
      if q.den = 1 && prec = 0 then toString q.num else formatFixed prec q
    | PyVal.vStr s => if strContains s "%" then pyReplace s "%" "" else s
    | v => pyStr v

/-! ## Sample collection and the monitoring loop (`collect_data` lines
563-662, `calculate_deltas` lines 665-692, `__main__` loop lines 866-917) -/

/-- The module-level configuration toggles of `run_power_logger.py`. -/
structure LoggerFlags where
  enableLogging : Bool
  enableDeltas : Bool
  enableThermal : Bool
  enableCpu : Bool
  enableMem : Bool
  deriving DecidableEq, Repr

/-- The source defaults: `ENABLE_LOGGING = True`, `ENABLE_DELTA_COLUMNS =
False`, `ENABLE_THERMAL_SENSORS = True`, `ENABLE_CPU_MONITORING = True`,
`ENABLE_MEMORY_MONITORING = True`. -/
def defaultFlags : LoggerFlags := ⟨true, false, true, true, true⟩

/-- The raw device outputs one tick reads over adb (`none` models a failed
command). -/
structure DeviceReads where
  currentNow : Option String
  currentAvg : Option String
  voltageNow : Option String
  capacity : Option String
  battTemp : Option String
  procStat : Option String
  meminfo : Option String
  thermal : Option String
  deriving DecidableEq, Repr

def emptyReads : DeviceReads := ⟨none, none, none, none, none, none, none, none⟩

/-- The parsing part of `get_battery_temperature`: a colon-separated line from
`dumpsys battery | grep temp`; the value is tenths of a degree. -/
def parse_battery_temp (output : Option String) : Option ℚ :=
  match output with
  | none => none
  | some out =>
    if out = "" then none
    else
      match pySplitColon out with
      | _ :: v :: _ => (parse_py_float (pyTrim v)).map (fun t => t / 10)
      | _ => none

/-- One tick's `data` dictionary (the timestamp is taken as an input; the
delta keys are merged in by `merge_deltas`). -/
structure Sample where
  timestamp : String
  currentMA : Option ℚ
  avgCurrentMA : Option ℚ
  voltageMV : Option ℚ
  capacityPct : Option ℤ
  batteryTempC : Option ℚ
  powerW : Option ℚ
  cpu : CpuPercentages
  mem : MemData
  thermal : List (String × Option ℚ)
  dCurrentMA : Option ℚ
  dAvgCurrentMA : Option ℚ
  dVoltageMV : Option ℚ
  dPowerW : Option ℚ
  deriving DecidableEq, Repr

/-- Collection `collect_data(thermal_sensor_names, previous_proc_stat)` with the raw
device outputs passed explicitly: battery micro-unit integers divided by
1000, power = (V) × (A) with the signed current, CPU via `get_cpu_usage`
when enabled (keeping the previous stat data on failure), memory via
`get_memory_usage` when enabled, thermal readings for the known sensor
names when enabled.  Returns the sample and the stat data for the next
tick. -/
def collect_data (flags : LoggerFlags) (thermalNames : List String) (ts : String)
    (reads : DeviceReads) (previousProcStat : Option CpuStatData) :
    Sample × Option CpuStatData :=
  let current_ua := reads.currentNow.bind pyToInt
  let current_avg_ua := reads.currentAvg.bind pyToInt
  let voltage_uv := reads.voltageNow.bind pyToInt
  let currentMA := current_ua.map (fun n => (n : ℚ) / 1000)
  let avgCurrentMA := current_avg_ua.map (fun n => (n : ℚ) / 1000)
  let voltageMV := voltage_uv.map (fun n => (n : ℚ) / 1000)
  let powerW :=
    match voltageMV, currentMA with
    | some v, some c => some ((v / 1000) * (c / 1000))
    | _, _ => none
  let cpuPair :=
    if flags.enableCpu then
      match get_cpu_usage previousProcStat reads.procStat with
      | (some pcts, st) => (pcts, st)
      | (none, st) => (cpuNA, st)
    else (cpuNA, previousProcStat)
  ({ timestamp := ts
     currentMA := currentMA
     avgCurrentMA := avgCurrentMA
     voltageMV := voltageMV
     capacityPct := reads.capacity.bind pyToInt
     batteryTempC := parse_battery_temp reads.battTemp
     powerW := powerW
     cpu := cpuPair.1
     mem := if flags.enableMem then get_memory_usage reads.meminfo else memNA
     thermal :=
       if flags.enableThermal then
         thermalNames.map
           (fun n => (n, lookupAssoc (parse_temperature_output reads.thermal) n))
       else []
     dCurrentMA := none
     dAvgCurrentMA := none
     dVoltageMV := none
     dPowerW := none }, cpuPair.2)

/-- The four delta keys of `calculate_deltas`. -/
structure DeltaRecord where
  dCurrentMA : Option ℚ
  dAvgCurrentMA : Option ℚ
  dVoltageMV : Option ℚ
  dPowerW : Option ℚ
  deriving DecidableEq, Repr

/-- One delta field: `current - previous` when both are numeric, else `None`. -/
def combine_delta : Option ℚ → Option ℚ → Option ℚ
  | some c, some p => some (c - p)
  | _, _ => none

/-- The function `calculate_deltas(current_data, previous_data)`: all deltas absent when
delta columns are disabled or there is no previous sample; otherwise each
delta key is current − previous when both sides are numeric. -/
def calculate_deltas (enableDeltas : Bool) (cur : Sample) (prev : Option Sample) :
    DeltaRecord :=
  match prev, enableDeltas with
  | none, _ => ⟨none, none, none, none⟩
  | _, false => ⟨none, none, none, none⟩
  | some p, true =>
    ⟨combine_delta cur.currentMA p.currentMA,
     combine_delta cur.avgCurrentMA p.avgCurrentMA,
     combine_delta cur.voltageMV p.voltageMV,
     combine_delta cur.powerW p.powerW⟩

/-- Merging step `current_data_snapshot.update(deltas)`. -/
def merge_deltas (s : Sample) (d : DeltaRecord) : Sample :=
  { s with dCurrentMA := d.dCurrentMA, dAvgCurrentMA := d.dAvgCurrentMA,
           dVoltageMV := d.dVoltageMV, dPowerW := d.dPowerW }

/-! `run_power_lgger_diff_csv.py` computations (lines 81-97): this variant
applies `abs` to the current when computing power. -/

/-- Power in the diff-CSV variant, `power_w = voltage_mv/1000 * abs(current_ma/1000)` with
`voltage_mv = voltage_uv/1000` and `current_ma = current_ua/1000`. -/
def diff_csv_power_w (current_ua voltage_uv : ℤ) : ℚ :=
  ((voltage_uv : ℚ) / 1000) / 1000 * |((current_ua : ℚ) / 1000) / 1000|

/-- Current delta in the diff-CSV variant, `current_delta_ma = (current_ua - previous_current_ua) / 1000.0`. -/
def diff_csv_delta_ma (current_ua previous_ua : ℤ) : ℚ :=
  ((current_ua : ℚ) - (previous_ua : ℚ)) / 1000

/-! ### The monitoring loop -/

/-- The mutable loop state: the previous sample and the previous CPU stat
data. -/
structure LoopState where
  prevSample : Option Sample
  prevStat : Option CpuStatData
  deriving DecidableEq, Repr

/-- What one iteration of `while True` encounters: a normal tick with its
device reads, an unexpected exception raised inside the tick, or a
`KeyboardInterrupt`. -/
inductive TickInput
  | ok (ts : String) (reads : DeviceReads)
  | exn
  | interrupt
  deriving DecidableEq, Repr

inductive ExitKind
  | exhausted
  | critical
  | interrupted
  deriving DecidableEq, Repr

/-- The body of one successful tick: collect, compute deltas, merge, then
replace the stored previous sample unconditionally and, when CPU monitoring
is enabled, the stored previous stat data with the returned one. -/
def loop_step (flags : LoggerFlags) (thermalNames : List String) (st : LoopState)
    (ts : String) (reads : DeviceReads) : Sample × LoopState :=
  let collected :=
    collect_data flags thermalNames ts reads
      (if flags.enableCpu then st.prevStat else none)
  let sample :=
    merge_deltas collected.1 (calculate_deltas flags.enableDeltas collected.1 st.prevSample)
  (sample, ⟨some sample, if flags.enableCpu then collected.2 else st.prevStat⟩)

/-- The `try: while True: ...` monitoring loop over a list of tick inputs:
emits (prints and logs) one row per successful tick; an exception anywhere
inside a tick leaves the loop through the outer handler (`critical`), a
`KeyboardInterrupt` through the interrupt handler; remaining inputs are
never processed. -/
def run_monitor_loop (flags : LoggerFlags) (thermalNames : List String) :
    List TickInput → LoopState → List Sample × LoopState × ExitKind
  | [], st => ([], st, ExitKind.exhausted)
  | TickInput.ok ts reads :: rest, st =>
    let stepped := loop_step flags thermalNames st ts reads
    let further := run_monitor_loop flags thermalNames rest stepped.2
    (stepped.1 :: further.1, further.2)
  | TickInput.exn :: _, st => ([], st, ExitKind.critical)
  | TickInput.interrupt :: _, st => ([], st, ExitKind.interrupted)

/-! ## Theorems -/

theorem rat_floor_eq_intFloor (q : ℚ) : Rat.floor q = ⌊q⌋ := by
  rw [Rat.floor_def]
  exact Rat.floor_def' q

theorem abs_rhe_sub_le (y : ℚ) : |(rhe y : ℚ) - y| ≤ 1/2 := by
  have h0 : (⌊y⌋ : ℚ) ≤ y := Int.floor_le y
  have h1 : y < ⌊y⌋ + 1 := Int.lt_floor_add_one y
  unfold rhe
  rw [rat_floor_eq_intFloor]
  split_ifs with hA hB hC
  · rw [abs_le]
    constructor <;> linarith
  · have hA' : ¬ (y - (⌊y⌋ : ℚ) < 1/2) := hA
    rw [not_lt] at hA'
    rw [abs_le]
    constructor <;> push_cast <;> linarith
  · have hA' : (1:ℚ)/2 ≤ y - (⌊y⌋ : ℚ) := not_lt.mp hA
    have hB' : y - (⌊y⌋ : ℚ) ≤ 1/2 := not_lt.mp hB
    rw [abs_le]
    constructor <;> linarith
  · have hA' : (1:ℚ)/2 ≤ y - (⌊y⌋ : ℚ) := not_lt.mp hA
    have hB' : y - (⌊y⌋ : ℚ) ≤ 1/2 := not_lt.mp hB
    rw [abs_le]
    constructor <;> push_cast <;> linarith

theorem rhe_intCast (n : ℤ) : rhe (n : ℚ) = n := by
  unfold rhe
  rw [rat_floor_eq_intFloor, Int.floor_intCast]
  rw [if_pos (by norm_num)]

theorem roundTo_one_err (x : ℚ) : |roundTo 1 x - x| ≤ 1/20 := by
  have h := abs_rhe_sub_le (x * 10 ^ 1)
  have key : roundTo 1 x - x = ((rhe (x * 10 ^ 1) : ℚ) - x * 10 ^ 1) / 10 ^ 1 := by
    unfold roundTo
    ring
  rw [key, abs_div]
  have h10 : |((10:ℚ) ^ 1)| = 10 := by norm_num
  rw [h10]
  linarith

theorem roundTo_one_eq_of_mul_ten_int (q : ℚ) (n : ℤ) (h : q * 10 ^ 1 = (n : ℚ)) :
    roundTo 1 q = q := by
  unfold roundTo
  rw [h, rhe_intCast]
  field_simp at h ⊢
  linarith

theorem roundTo_one_hundred_sub (x : ℚ) :
    roundTo 1 (100 - roundTo 1 x) = 100 - roundTo 1 x := by
  apply roundTo_one_eq_of_mul_ten_int _ (1000 - rhe (x * 10 ^ 1))
  unfold roundTo
  push_cast
  ring

/-- C1: for the CPU reader, with no prior snapshot all percentage fields are
unavailable; with a prior snapshot and a positive total-tick delta each
per-field percentage is `(curField - prevField) / (curTotal - prevTotal) * 100`
rounded to one decimal and the total usage is `100 - idle%`; with a
non-positive total-tick delta the fields stay unavailable; and on the
`/proc/stat` lines `cpu 100 0 50 850 0 0 0 0 0 0` then
`cpu 110 0 60 900 0 0 0 0 0 0` the total delta is 70, the idle delta is 50,
idle% is 71.4 and total usage is 28.6. -/
theorem C1_cpu_reader :
    (∀ c : CpuStatData, compute_cpu_percentages none c = cpuNA) ∧
    (∀ p c : CpuStatData, 0 < c.total_ticks - p.total_ticks →
      (compute_cpu_percentages (some p) c).user =
        some (roundTo 1
          (((c.user - p.user : ℤ) : ℚ) / ((c.total_ticks - p.total_ticks : ℤ) : ℚ) * 100)) ∧
      (compute_cpu_percentages (some p) c).nice =
        some (roundTo 1
          (((c.nice - p.nice : ℤ) : ℚ) / ((c.total_ticks - p.total_ticks : ℤ) : ℚ) * 100)) ∧
      (compute_cpu_percentages (some p) c).system =
        some (roundTo 1
          (((c.system - p.system : ℤ) : ℚ) / ((c.total_ticks - p.total_ticks : ℤ) : ℚ) * 100)) ∧
      (compute_cpu_percentages (some p) c).idle =
        some (roundTo 1
          (((c.idle - p.idle : ℤ) : ℚ) / ((c.total_ticks - p.total_ticks : ℤ) : ℚ) * 100)) ∧
      (compute_cpu_percentages (some p) c).iowait =
        some (roundTo 1
          (((c.iowait - p.iowait : ℤ) : ℚ) / ((c.total_ticks - p.total_ticks : ℤ) : ℚ) * 100)) ∧
      (compute_cpu_percentages (some p) c).irq =
        some (roundTo 1
          (((c.irq - p.irq : ℤ) : ℚ) / ((c.total_ticks - p.total_ticks : ℤ) : ℚ) * 100)) ∧
      (compute_cpu_percentages (some p) c).softirq =
        some (roundTo 1
          (((c.softirq - p.softirq : ℤ) : ℚ) / ((c.total_ticks - p.total_ticks : ℤ) : ℚ) * 100)) ∧
      (compute_cpu_percentages (some p) c).total =
        some (100 - roundTo 1
          (((c.idle - p.idle : ℤ) : ℚ) / ((c.total_ticks - p.total_ticks : ℤ) : ℚ) * 100))) ∧
    (∀ p c : CpuStatData, c.total_ticks - p.total_ticks ≤ 0 →
      compute_cpu_percentages (some p) c = cpuNA) ∧
    ((get_cpu_usage none (some "cpu 100 0 50 850 0 0 0 0 0 0")).2 =
        some (mk_cpu_stat_data [100, 0, 50, 850, 0, 0, 0, 0, 0, 0]) ∧
      (mk_cpu_stat_data [110, 0, 60, 900, 0, 0, 0, 0, 0, 0]).total_ticks -
          (mk_cpu_stat_data [100, 0, 50, 850, 0, 0, 0, 0, 0, 0]).total_ticks = 70 ∧
      (mk_cpu_stat_data [110, 0, 60, 900, 0, 0, 0, 0, 0, 0]).idle -
          (mk_cpu_stat_data [100, 0, 50, 850, 0, 0, 0, 0, 0, 0]).idle = 50 ∧
      (get_cpu_usage (some (mk_cpu_stat_data [100, 0, 50, 850, 0, 0, 0, 0, 0, 0]))
          (some "cpu 110 0 60 900 0 0 0 0 0 0")).1.map CpuPercentages.idle =
        some (some (71.4 : ℚ)) ∧
      (get_cpu_usage (some (mk_cpu_stat_data [100, 0, 50, 850, 0, 0, 0, 0, 0, 0]))
          (some "cpu 110 0 60 900 0 0 0 0 0 0")).1.map CpuPercentages.total =
        some (some (28.6 : ℚ))) := by
  refine ⟨fun c => rfl, ?_, ?_, ?_⟩
  · intro p c h
    refine ⟨?_, ?_, ?_, ?_, ?_, ?_, ?_, ?_⟩ <;>
      simp only [compute_cpu_percentages, if_pos h, pctQ, roundTo_one_hundred_sub]
  · intro p c h
    simp only [compute_cpu_percentages, if_neg (not_lt.mpr h)]
  · exact by decide

/-- Witness for C1: the percentage formula instantiated on the snapshots of
the scenario, with the positive total-tick delta discharged concretely. -/
theorem C1_cpu_reader_witness :
    0 < (mk_cpu_stat_data [110, 0, 60, 900, 0, 0, 0, 0, 0, 0]).total_ticks -
        (mk_cpu_stat_data [100, 0, 50, 850, 0, 0, 0, 0, 0, 0]).total_ticks ∧
    (compute_cpu_percentages (some (mk_cpu_stat_data [100, 0, 50, 850, 0, 0, 0, 0, 0, 0]))
        (mk_cpu_stat_data [110, 0, 60, 900, 0, 0, 0, 0, 0, 0])).idle =
      some (roundTo 1
        ((((mk_cpu_stat_data [110, 0, 60, 900, 0, 0, 0, 0, 0, 0]).idle -
            (mk_cpu_stat_data [100, 0, 50, 850, 0, 0, 0, 0, 0, 0]).idle : ℤ) : ℚ) /
          (((mk_cpu_stat_data [110, 0, 60, 900, 0, 0, 0, 0, 0, 0]).total_ticks -
            (mk_cpu_stat_data [100, 0, 50, 850, 0, 0, 0, 0, 0, 0]).total_ticks : ℤ) : ℚ) * 100)) :=
  ⟨by decide,
    (C1_cpu_reader.2.1 _ _ (by decide)).2.2.2.1⟩

/-- C3 counterexample: in the parsed meminfo input `SwapTotal: -1024 kB`,
`SwapFree: 0 kB`, both swap fields are present, so the claim demands
swap-used = swap-total − swap-free = `kb_to_mb (-1024)` = −1 MB; the code
instead leaves swap-used unavailable, because its first branch also requires
`swap_total > 0`. -/
theorem C3_memory_counterexample :
    (mem_from_lookups none none none none none (some (-1024)) (some 0)).swap_used_mb = none ∧
    kb_to_mb (some (-1024 - 0)) = some (-1) ∧
    (get_memory_usage (some "SwapTotal:      -1024 kB\nSwapFree:       0 kB")).swap_used_mb =
      none :=
  by decide

/-- C3 (amended): used = total − available when both are reported, else
total − free − buffers − cached when those are all reported; swap-used =
swap-total − swap-free when both are present and swap-total is positive,
0 when swap-total is exactly 0, unavailable otherwise; kilobytes convert to
megabytes by dividing by 1024 and rounding to 0 decimals. -/
theorem C3_memory_amended (total free available buffers cached swapTotal swapFree :
    Option ℤ) :
    (∀ t a : ℤ, total = some t → available = some a →
      (mem_from_lookups total free available buffers cached swapTotal swapFree).used_mb =
        kb_to_mb (some (t - a))) ∧
    (∀ t f b c : ℤ, available = none → total = some t → free = some f → buffers = some b →
      cached = some c →
      (mem_from_lookups total free available buffers cached swapTotal swapFree).used_mb =
        kb_to_mb (some (t - f - b - c))) ∧
    (∀ t f : ℤ, swapTotal = some t → 0 < t → swapFree = some f →
      (mem_from_lookups total free available buffers cached swapTotal swapFree).swap_used_mb =
        kb_to_mb (some (t - f))) ∧
    (swapTotal = some 0 →
      (mem_from_lookups total free available buffers cached swapTotal swapFree).swap_used_mb =
        some 0) ∧
    ((swapTotal = none ∨ ∃ t : ℤ, swapTotal = some t ∧ t ≠ 0 ∧ (swapFree = none ∨ t < 0)) →
      (mem_from_lookups total free available buffers cached swapTotal swapFree).swap_used_mb =
        none) ∧
    (∀ k : ℤ, kb_to_mb (some k) = some (roundTo 0 ((k : ℚ) / 1024))) := by
  refine ⟨?_, ?_, ?_, ?_, ?_, fun k => rfl⟩
  · rintro t a rfl rfl
    rfl
  · rintro t f b c rfl rfl rfl rfl rfl
    rfl
  · rintro t f rfl hpos rfl
    simp [mem_from_lookups, if_pos hpos]
  · rintro rfl
    cases swapFree with
    | none => simp [mem_from_lookups]
    | some f => simp [mem_from_lookups]
  · rintro (rfl | ⟨t, rfl, hne, (rfl | hneg)⟩)
    · rfl
    · simp [mem_from_lookups, hne]
    · have h1 : ¬ (0 < t) := by omega
      cases swapFree with
      | none => simp [mem_from_lookups, hne]
      | some f => simp [mem_from_lookups, h1, hne]

/-- Witness for C3: the amended clauses instantiated on a concrete meminfo
lookup result (total 2048 kB, available 1024 kB, swap total 0). -/
theorem C3_memory_amended_witness :
    (mem_from_lookups (some 2048) none (some 1024) none none (some 0) none).used_mb =
      kb_to_mb (some (2048 - 1024)) ∧
    (mem_from_lookups (some 2048) none (some 1024) none none (some 0) none).swap_used_mb =
      some 0 ∧
    kb_to_mb (some (2048 - 1024)) = some 1 :=
  ⟨(C3_memory_amended (some 2048) none (some 1024) none none (some 0) none).1 2048 1024 rfl rfl,
   (C3_memory_amended (some 2048) none (some 1024) none none (some 0) none).2.2.2.1 rfl,
   by decide⟩

/-! ## Dictionary lemmas -/

theorem lookupAssoc_eq_none_iff {α : Type _} (l : List (String × α)) (k : String) :
    lookupAssoc l k = none ↔ containsKey l k = false := by
  induction l with
  | nil => simp [lookupAssoc, containsKey]
  | cons p rest ih =>
    obtain ⟨k', v⟩ := p
    by_cases h : k' = k <;> simp [lookupAssoc, containsKey, h, ih]

theorem lookup_updateAssoc_self {α : Type _} (l : List (String × α)) (k : String) (v : α) :
    lookupAssoc (updateAssoc l k v) k = some v := by
  induction l with
  | nil => simp [updateAssoc, lookupAssoc]
  | cons p rest ih =>
    obtain ⟨k', w⟩ := p
    by_cases hk : k' = k <;> simp [updateAssoc, hk, lookupAssoc, ih]

theorem lookup_updateAssoc_ne {α : Type _} (l : List (String × α)) (k k' : String) (v : α)
    (h : k' ≠ k) :
    lookupAssoc (updateAssoc l k' v) k = lookupAssoc l k := by
  induction l with
  | nil => simp [updateAssoc, lookupAssoc, h]
  | cons p rest ih =>
    obtain ⟨a, b⟩ := p
    by_cases ha : a = k'
    · subst ha
      simp [updateAssoc, lookupAssoc, h]
    · by_cases hak : a = k <;> simp [updateAssoc, lookupAssoc, ha, hak, ih, Ne.symm h]

theorem containsKey_iff_mem {α : Type _} (l : List (String × α)) (k : String) :
    containsKey l k = true ↔ k ∈ l.map Prod.fst := by
  induction l with
  | nil => simp [containsKey]
  | cons p rest ih =>
    obtain ⟨a, b⟩ := p
    by_cases h : a = k
    · simp [containsKey, h]
    · have h' : ¬ (k = a) := fun hk => h hk.symm
      simp [containsKey, h, h', ih]

theorem containsKey_eq_false_iff {α : Type _} (l : List (String × α)) (k : String) :
    containsKey l k = false ↔ k ∉ l.map Prod.fst := by
  rw [← containsKey_iff_mem]
  cases containsKey l k <;> simp

theorem map_fst_updateAssoc {α : Type _} (l : List (String × α)) (k : String) (v : α) :
    (updateAssoc l k v).map Prod.fst =
      if containsKey l k then l.map Prod.fst else l.map Prod.fst ++ [k] := by
  induction l with
  | nil => simp [updateAssoc, containsKey]
  | cons p rest ih =>
    obtain ⟨a, b⟩ := p
    by_cases ha : a = k
    · simp [updateAssoc, containsKey, ha]
    · simp only [updateAssoc, if_neg ha, List.map_cons, ih, containsKey]
      by_cases hc : containsKey rest k <;> simp [ha, hc]

theorem nodup_map_fst_updateAssoc {α : Type _} (l : List (String × α)) (k : String) (v : α)
    (h : (l.map Prod.fst).Nodup) : ((updateAssoc l k v).map Prod.fst).Nodup := by
  rw [map_fst_updateAssoc]
  by_cases hc : containsKey l k
  · rw [if_pos hc]
    exact h
  · rw [if_neg hc]
    rw [List.nodup_append]
    refine ⟨h, by simp, ?_⟩
    intro x hx hy
    simp at hy
    rw [hy] at hx
    exact (containsKey_eq_false_iff l k).mp (by simpa using hc) hx

theorem lookup_foldUpdate_of_none (add : List (String × ℚ)) :
    ∀ (base : List (String × ℚ)) (k : String), lookupAssoc add k = none →
      lookupAssoc (foldUpdate base add) k = lookupAssoc base k := by
  induction add with
  | nil => intro base k _; rfl
  | cons p rest ih =>
    obtain ⟨a, b⟩ := p
    intro base k h
    have ha : a ≠ k := by
      intro hak
      rw [hak] at h
      simp [lookupAssoc] at h
    have hrest : lookupAssoc rest k = none := by simpa [lookupAssoc, ha] using h
    show lookupAssoc (foldUpdate (updateAssoc base a b) rest) k = _
    rw [ih _ _ hrest, lookup_updateAssoc_ne _ _ _ _ ha]

theorem lookup_foldUpdate_of_some (add : List (String × ℚ)) :
    ∀ (base : List (String × ℚ)) (k : String) (v : ℚ),
      (add.map Prod.fst).Nodup → lookupAssoc add k = some v →
      lookupAssoc (foldUpdate base add) k = some v := by
  induction add with
  | nil =>
    intro base k v _ h
    simp [lookupAssoc] at h
  | cons p rest ih =>
    obtain ⟨a, b⟩ := p
    intro base k v hnd h
    have hnd' : (rest.map Prod.fst).Nodup := (List.nodup_cons.mp (by simpa using hnd)).2
    by_cases hak : a = k
    · subst hak
      have hb : b = v := by simpa [lookupAssoc] using h
      subst hb
      have hnotin : a ∉ rest.map Prod.fst := (List.nodup_cons.mp (by simpa using hnd)).1
      have hrest : lookupAssoc rest a = none :=
        (lookupAssoc_eq_none_iff rest a).mpr ((containsKey_eq_false_iff rest a).mpr hnotin)
      show lookupAssoc (foldUpdate (updateAssoc base a b) rest) a = some b
      rw [lookup_foldUpdate_of_none _ _ _ hrest, lookup_updateAssoc_self]
    · have hrest : lookupAssoc rest k = some v := by simpa [lookupAssoc, hak] using h
      show lookupAssoc (foldUpdate (updateAssoc base a b) rest) k = some v
      exact ih _ _ _ hnd' hrest

theorem therm_step_curTemps (st : ThermScan) (line : String) :
    (therm_step st line).curTemps = st.curTemps ∨
      ∃ n v, (therm_step st line).curTemps = updateAssoc st.curTemps n v := by
  unfold therm_step
  repeat' split
  all_goals first | exact Or.inl rfl | exact Or.inr ⟨_, _, rfl⟩

theorem nodup_curTemps_therm_step (st : ThermScan) (line : String)
    (h : (st.curTemps.map Prod.fst).Nodup) :
    ((therm_step st line).curTemps.map Prod.fst).Nodup := by
  rcases therm_step_curTemps st line with he | ⟨n, v, he⟩
  · rw [he]; exact h
  · rw [he]; exact nodup_map_fst_updateAssoc _ _ _ h

theorem nodup_curTemps_scan (lines : List String) :
    (((therm_scan_lines lines).curTemps).map Prod.fst).Nodup := by
  have main : ∀ st : ThermScan, (st.curTemps.map Prod.fst).Nodup →
      (((lines.foldl therm_step st)).curTemps.map Prod.fst).Nodup := by
    induction lines with
    | nil => intro st h; exact h
    | cons l rest ih => intro st h; exact ih _ (nodup_curTemps_therm_step st l h)
  exact main _ (by simp)

/-- C5: whenever a sensor name is recorded in the current/HAL section of a
thermal dump, the final parsed result for that name is the current/HAL value,
whatever the cached section holds (the final merge applies the cached
dictionary first and the current one second). -/
theorem C5_hal_value_wins (output : String) (name : String) (v : ℚ)
    (h : lookupAssoc (therm_scan_lines (pySplitLines output)).curTemps name = some v) :
    lookupAssoc (parse_temperature_output (some output)) name = some v := by
  by_cases hout : output = ""
  · subst hout
    have hempty : (therm_scan_lines (pySplitLines "")).curTemps = [] :=
      by decide
    rw [hempty] at h
    simp [lookupAssoc] at h
  · show lookupAssoc (if output = "" then [] else _) name = some v
    rw [if_neg hout]
    exact lookup_foldUpdate_of_some _ _ _ _ (nodup_curTemps_scan _) h

/-- Witness for C5: a dump carrying a cached record (12.0) and a same-named
current/HAL record (37.5); the parsed result is the HAL value 37.5. -/
theorem C5_hal_value_wins_witness :
    lookupAssoc (therm_scan_lines (pySplitLines thermDumpBothSections)).curTemps "battery" =
      some (75/2) ∧
    lookupAssoc (parse_temperature_output (some thermDumpBothSections)) "battery" =
      some (75/2) :=
  ⟨by decide,
   C5_hal_value_wins thermDumpBothSections "battery" (75/2)
     (by decide)⟩

/-- C6 counterexample: in `thermDumpGarbageMiddle` the line
`some unrelated diagnostic line` does not match the record shape and follows
a matching record inside the Current-HAL section, so the claim says the later
`cpu` record is not included; the parser does include it (value 45.0). -/
theorem C6_section_stop_counterexample :
    temp_regex_search "some unrelated diagnostic line" = none ∧
    lookupAssoc (parse_temperature_output (some thermDumpGarbageMiddle)) "cpu" = some 45 ∧
    lookupAssoc (parse_temperature_output (some thermDumpGarbageMiddle)) "battery" =
      some (61/2) :=
  by decide

/-- C6 (amended): the parser leaves a section only at one of the three
explicit header lines (`Cached temperatures:`, `Current temperatures from
HAL:`, `Sensor Status:`); any other line, matching the record shape or not,
leaves the section flags unchanged, so records after a non-matching line in
the same section are still collected. -/
theorem C6_section_stop_amended :
    (∀ (st : ThermScan) (line : String),
      pyTrim line ≠ "Cached temperatures:" →
      pyTrim line ≠ "Current temperatures from HAL:" →
      pyTrim line ≠ "Sensor Status:" →
      (therm_step st line).parsingCurrent = st.parsingCurrent ∧
      (therm_step st line).parsingCached = st.parsingCached) ∧
    (∀ (st : ThermScan) (line : String), pyTrim line = "Sensor Status:" →
      (therm_step st line).parsingCurrent = false ∧
      (therm_step st line).parsingCached = false) := by
  constructor
  · intro st line h1 h2 h3
    unfold therm_step
    rw [if_neg h1, if_neg h2, if_neg h3]
    constructor <;> (repeat' split) <;> rfl
  · intro st line h
    have h1 : pyTrim line ≠ "Cached temperatures:" := by
      rw [h]; decide
    have h2 : pyTrim line ≠ "Current temperatures from HAL:" := by
      rw [h]; decide
    unfold therm_step
    rw [if_neg h1, if_neg h2, if_pos h]
    exact ⟨rfl, rfl⟩

/-- Witness for C6: a non-header, non-record line inside the Current-HAL
section leaves the section flags unchanged. -/
theorem C6_section_stop_amended_witness :
    (therm_step (ThermScan.mk false true [] []) "noise").parsingCurrent =
      (ThermScan.mk false true [] []).parsingCurrent ∧
    (therm_step (ThermScan.mk false true [] []) "noise").parsingCached =
      (ThermScan.mk false true [] []).parsingCached :=
  C6_section_stop_amended.1 (ThermScan.mk false true [] []) "noise"
    (by decide)
    (by decide)
    (by decide)

/-- C7: a field whose value is unavailable (`None` or `'N/A'`) renders on the
console as the right-aligned literal `N/A` placeholder and serializes in the
CSV row of the same tick as the literal text `N/A`, for every column. -/
theorem C7_na_round_trip (v : PyVal) (col : String) (h : isNAVal v = true) :
    format_value_for_display v col = rightAlign "N/A" (widthFor col) ∧
    csv_serialize_value v col = "N/A" := by
  constructor
  · unfold format_value_for_display
    rw [if_pos h]
  · unfold csv_serialize_value
    rw [if_pos h]

/-- Witness for C7: the unavailable marker in the `Power (W)` column renders
as `N/A` both on the console (padded to the column width) and in the CSV. -/
theorem C7_na_round_trip_witness :
    isNAVal PyVal.vNone = true ∧
    (format_value_for_display PyVal.vNone "Power (W)" = rightAlign "N/A" (widthFor "Power (W)") ∧
      csv_serialize_value PyVal.vNone "Power (W)" = "N/A") ∧
    rightAlign "N/A" (widthFor "Power (W)") = "        N/A" :=
  ⟨by decide,
   C7_na_round_trip PyVal.vNone "Power (W)" (by decide),
   by decide⟩

/-- C2: with delta columns enabled, every delta field of a pair of
consecutive samples whose base field is numeric on both sides equals
current − previous exactly; for the first sample (no previous) and whenever
either side is non-numeric the delta field is unavailable; the diff-CSV
variant's current delta `(cur_ua - prev_ua)/1000` likewise equals the
difference of the converted mA values. -/
theorem C2_deltas :
    (∀ (e : Bool) (cur : Sample), calculate_deltas e cur none = ⟨none, none, none, none⟩) ∧
    (∀ (cur prev : Sample) (c p : ℚ), cur.currentMA = some c → prev.currentMA = some p →
      (calculate_deltas true cur (some prev)).dCurrentMA = some (c - p)) ∧
    (∀ (cur prev : Sample) (c p : ℚ), cur.avgCurrentMA = some c → prev.avgCurrentMA = some p →
      (calculate_deltas true cur (some prev)).dAvgCurrentMA = some (c - p)) ∧
    (∀ (cur prev : Sample) (c p : ℚ), cur.voltageMV = some c → prev.voltageMV = some p →
      (calculate_deltas true cur (some prev)).dVoltageMV = some (c - p)) ∧
    (∀ (cur prev : Sample) (c p : ℚ), cur.powerW = some c → prev.powerW = some p →
      (calculate_deltas true cur (some prev)).dPowerW = some (c - p)) ∧
    (∀ (e : Bool) (cur prev : Sample), cur.currentMA = none ∨ prev.currentMA = none →
      (calculate_deltas e cur (some prev)).dCurrentMA = none) ∧
    (∀ (e : Bool) (cur prev : Sample), cur.avgCurrentMA = none ∨ prev.avgCurrentMA = none →
      (calculate_deltas e cur (some prev)).dAvgCurrentMA = none) ∧
    (∀ (e : Bool) (cur prev : Sample), cur.voltageMV = none ∨ prev.voltageMV = none →
      (calculate_deltas e cur (some prev)).dVoltageMV = none) ∧
    (∀ (e : Bool) (cur prev : Sample), cur.powerW = none ∨ prev.powerW = none →
      (calculate_deltas e cur (some prev)).dPowerW = none) ∧
    (∀ c p : ℤ, diff_csv_delta_ma c p = (c : ℚ) / 1000 - (p : ℚ) / 1000) := by
  refine ⟨fun e cur => by cases e <;> rfl, ?_, ?_, ?_, ?_, ?_, ?_, ?_, ?_,
    fun c p => by unfold diff_csv_delta_ma; ring⟩
  · intro cur prev c p h1 h2
    simp [calculate_deltas, combine_delta, h1, h2]
  · intro cur prev c p h1 h2
    simp [calculate_deltas, combine_delta, h1, h2]
  · intro cur prev c p h1 h2
    simp [calculate_deltas, combine_delta, h1, h2]
  · intro cur prev c p h1 h2
    simp [calculate_deltas, combine_delta, h1, h2]
  · intro e cur prev h
    cases e
    · rfl
    · rcases h with h | h
      · cases hc : prev.currentMA <;> simp [calculate_deltas, combine_delta, h, hc]
      · cases hc : cur.currentMA <;> simp [calculate_deltas, combine_delta, h, hc]
  · intro e cur prev h
    cases e
    · rfl
    · rcases h with h | h
      · cases hc : prev.avgCurrentMA <;> simp [calculate_deltas, combine_delta, h, hc]
      · cases hc : cur.avgCurrentMA <;> simp [calculate_deltas, combine_delta, h, hc]
  · intro e cur prev h
    cases e
    · rfl
    · rcases h with h | h
      · cases hc : prev.voltageMV <;> simp [calculate_deltas, combine_delta, h, hc]
      · cases hc : cur.voltageMV <;> simp [calculate_deltas, combine_delta, h, hc]
  · intro e cur prev h
    cases e
    · rfl
    · rcases h with h | h
      · cases hc : prev.powerW <;> simp [calculate_deltas, combine_delta, h, hc]
      · cases hc : cur.powerW <;> simp [calculate_deltas, combine_delta, h, hc]

/-- Witness for C2: two collected samples with currents 1.0 mA and 2.5 mA;
the delta field holds 2.5 − 1.0. -/
theorem C2_deltas_witness :
    (collect_data defaultFlags [] "t2" { emptyReads with currentNow := some "2500" }
        none).1.currentMA = some (5/2) ∧
    (collect_data defaultFlags [] "t1" { emptyReads with currentNow := some "1000" }
        none).1.currentMA = some 1 ∧
    (calculate_deltas true
        (collect_data defaultFlags [] "t2" { emptyReads with currentNow := some "2500" }
          none).1
        (some (collect_data defaultFlags [] "t1"
          { emptyReads with currentNow := some "1000" } none).1)).dCurrentMA =
      some (5/2 - 1) :=
  ⟨by decide,
   by decide,
   C2_deltas.2.1 _ _ (5/2) 1 (by decide)
     (by decide)⟩

/-- C4 counterexample: for raw current −500000 µA (charging) and voltage
4000000 µV, the main logger's power is −2 W (sign follows the current), but
the diff-CSV variant cited by the claim computes +2 W because it takes the
absolute value of the current — so "no absolute-value normalization" fails
on that cited code. -/
theorem C4_power_sign_counterexample :
    (collect_data defaultFlags [] "t"
        { emptyReads with currentNow := some "-500000", voltageNow := some "4000000" }
        none).1.powerW = some (-2) ∧
    diff_csv_power_w (-500000) 4000000 = 2 ∧
    ((2 : ℚ) ≠ ((4000000 : ℚ) / 1000000) * ((-500000 : ℚ) / 1000000)) :=
  by decide

/-- C4 (amended): battery readings are micro-unit integers divided by 1000;
in the main logger power = (V) × (A) with the signed current (negative
current gives negative power), while the diff-CSV variant multiplies by the
absolute value of the current (nonnegative power for nonnegative voltage);
the 500000/4000000 scenario gives 500.0 mA, 4000.0 mV and 2.0 W. -/
theorem C4_power_amended :
    (∀ (flags : LoggerFlags) (names : List String) (ts : String) (reads : DeviceReads)
        (st : Option CpuStatData) (ua uv : ℤ),
      reads.currentNow.bind pyToInt = some ua →
      reads.voltageNow.bind pyToInt = some uv →
      (collect_data flags names ts reads st).1.currentMA = some ((ua : ℚ) / 1000) ∧
      (collect_data flags names ts reads st).1.voltageMV = some ((uv : ℚ) / 1000) ∧
      (collect_data flags names ts reads st).1.powerW =
        some (((uv : ℚ) / 1000000) * ((ua : ℚ) / 1000000)) ∧
      (ua < 0 → 0 < uv → (collect_data flags names ts reads st).1.powerW.getD 0 < 0)) ∧
    (∀ ua uv : ℤ,
      diff_csv_power_w ua uv = ((uv : ℚ) / 1000000) * |(ua : ℚ) / 1000000|) ∧
    (∀ ua uv : ℤ, 0 ≤ (uv : ℚ) → 0 ≤ diff_csv_power_w ua uv) ∧
    ((collect_data defaultFlags [] "t"
        { emptyReads with currentNow := some "500000", voltageNow := some "4000000" }
        none).1.currentMA = some 500 ∧
      (collect_data defaultFlags [] "t"
        { emptyReads with currentNow := some "500000", voltageNow := some "4000000" }
        none).1.voltageMV = some 4000 ∧
      (collect_data defaultFlags [] "t"
        { emptyReads with currentNow := some "500000", voltageNow := some "4000000" }
        none).1.powerW = some 2) := by
  refine ⟨?_, ?_, ?_, ?_⟩
  · intro flags names ts reads st ua uv h1 h2
    have hc : (collect_data flags names ts reads st).1.currentMA = some ((ua : ℚ) / 1000) := by
      simp [collect_data, h1]
    have hv : (collect_data flags names ts reads st).1.voltageMV = some ((uv : ℚ) / 1000) := by
      simp [collect_data, h2]
    have hp : (collect_data flags names ts reads st).1.powerW =
        some (((uv : ℚ) / 1000 / 1000) * ((ua : ℚ) / 1000 / 1000)) := by
      simp [collect_data, h1, h2]
    refine ⟨hc, hv, ?_, ?_⟩
    · rw [hp]
      congr 1
      ring
    · intro hua huv
      rw [hp]
      simp only [Option.getD_some]
      apply mul_neg_of_pos_of_neg
      · have huv' : (0 : ℚ) < uv := by exact_mod_cast huv
        positivity
      · have hua' : (ua : ℚ) < 0 := by exact_mod_cast hua
        have s1 : (ua : ℚ) / 1000 < 0 := div_neg_of_neg_of_pos hua' (by norm_num)
        exact div_neg_of_neg_of_pos s1 (by norm_num)
  · intro ua uv
    unfold diff_csv_power_w
    have e1 : ((uv : ℚ) / 1000) / 1000 = (uv : ℚ) / 1000000 := by ring
    have e2 : ((ua : ℚ) / 1000) / 1000 = (ua : ℚ) / 1000000 := by ring
    rw [e1, e2]
  · intro ua uv h
    unfold diff_csv_power_w
    apply mul_nonneg
    · exact div_nonneg (div_nonneg h (by norm_num)) (by norm_num)
    · exact abs_nonneg _
  · exact ⟨by decide,
      by decide,
      by decide⟩

/-- Witness for C4: the conversion clauses instantiated on the scenario
reads, with the parse hypotheses discharged concretely. -/
theorem C4_power_amended_witness :
    ({ emptyReads with currentNow := some "500000", voltageNow := some "4000000" } :
        DeviceReads).currentNow.bind pyToInt = some 500000 ∧
    (collect_data defaultFlags [] "t"
        { emptyReads with currentNow := some "500000", voltageNow := some "4000000" }
        none).1.powerW = some (((4000000 : ℚ) / 1000000) * ((500000 : ℚ) / 1000000)) :=
  ⟨by decide,
   (C4_power_amended.1 defaultFlags [] "t"
      { emptyReads with currentNow := some "500000", voltageNow := some "4000000" }
      none 500000 4000000
      (by decide)
      (by decide)).2.2.1⟩

/-- C8 counterexample: on the tick sequence [ok, exception, ok] the loop
emits only the first row and exits through the critical handler: the tick
after the exception is never processed, so the loop does not "continue to
the next tick". -/
theorem C8_loop_catch_counterexample :
    (run_monitor_loop defaultFlags []
        [TickInput.ok "t1" emptyReads, TickInput.exn, TickInput.ok "t2" emptyReads]
        ⟨none, none⟩).1.length = 1 ∧
    (run_monitor_loop defaultFlags []
        [TickInput.ok "t1" emptyReads, TickInput.exn, TickInput.ok "t2" emptyReads]
        ⟨none, none⟩).2.2 = ExitKind.critical :=
  by decide

/-- C8 (amended): the `try/except` wraps the whole `while True` loop, so an
unexpected exception inside a tick is logged by the outer handler and
terminates monitoring (exit through cleanup): exactly the rows of the ticks
before the exception are emitted and the run ends in the critical state. -/
theorem C8_loop_catch_amended (flags : LoggerFlags) (names : List String)
    (pre post : List TickInput)
    (h : ∀ t ∈ pre, ∃ ts reads, t = TickInput.ok ts reads) :
    ∀ st : LoopState,
      (run_monitor_loop flags names (pre ++ TickInput.exn :: post) st).2.2 =
        ExitKind.critical ∧
      (run_monitor_loop flags names (pre ++ TickInput.exn :: post) st).1 =
        (run_monitor_loop flags names pre st).1 := by
  induction pre with
  | nil => intro st; exact ⟨rfl, rfl⟩
  | cons t rest ih =>
    intro st
    obtain ⟨ts, reads, rfl⟩ := h t (List.mem_cons_self t rest)
    have h' : ∀ x ∈ rest, ∃ ts reads, x = TickInput.ok ts reads :=
      fun x hx => h x (List.mem_cons_of_mem _ hx)
    simp only [List.cons_append, run_monitor_loop, List.append_eq]
    exact ⟨(ih h' _).1, by rw [(ih h' _).2]⟩

/-- Witness for C8: the amended statement on the concrete run [ok, exn, ok]
from the counterexample. -/
theorem C8_loop_catch_amended_witness :
    (run_monitor_loop defaultFlags []
        ([TickInput.ok "t1" emptyReads] ++ TickInput.exn :: [TickInput.ok "t2" emptyReads])
        ⟨none, none⟩).2.2 = ExitKind.critical ∧
    (run_monitor_loop defaultFlags []
        ([TickInput.ok "t1" emptyReads] ++ TickInput.exn :: [TickInput.ok "t2" emptyReads])
        ⟨none, none⟩).1 =
      (run_monitor_loop defaultFlags [] [TickInput.ok "t1" emptyReads] ⟨none, none⟩).1 :=
  C8_loop_catch_amended defaultFlags [] [TickInput.ok "t1" emptyReads]
    [TickInput.ok "t2" emptyReads]
    (fun t ht => ⟨"t1", emptyReads, List.mem_singleton.mp ht⟩) ⟨none, none⟩

/-- C9: at the end of every successful tick the stored previous sample is
replaced unconditionally with the tick's (delta-merged) sample — whatever
fields are unavailable — and, with CPU monitoring enabled, the stored
previous stat data is replaced with the stat data `collect_data` returned
for this tick (which is the freshly parsed snapshot when the read succeeded
and the carried-over previous one when it failed). -/
theorem C9_state_replacement (flags : LoggerFlags) (names : List String) (st : LoopState)
    (ts : String) (reads : DeviceReads) (h : flags.enableCpu = true) :
    (loop_step flags names st ts reads).2.prevSample =
      some (loop_step flags names st ts reads).1 ∧
    (loop_step flags names st ts reads).2.prevStat =
      (collect_data flags names ts reads st.prevStat).2 := by
  constructor
  · rfl
  · simp [loop_step, h]

/-- Witness for C9: one step on empty reads (every field unavailable) still
replaces the stored sample and stat data. -/
theorem C9_state_replacement_witness :
    (loop_step defaultFlags [] ⟨none, none⟩ "t1" emptyReads).2.prevSample =
      some (loop_step defaultFlags [] ⟨none, none⟩ "t1" emptyReads).1 ∧
    (loop_step defaultFlags [] ⟨none, none⟩ "t1" emptyReads).2.prevStat =
      (collect_data defaultFlags [] "t1" emptyReads
        (LoopState.mk none none).prevStat).2 :=
  C9_state_replacement defaultFlags [] ⟨none, none⟩ "t1" emptyReads rfl

/-- Triangle-inequality bound: rounding seven summands that add to 100 to
one decimal each moves the sum by at most 7 × 0.05. -/
theorem abs_sum7_round_sub (x1 x2 x3 x4 x5 x6 x7 : ℚ)
    (h : x1 + x2 + x3 + x4 + x5 + x6 + x7 = 100) :
    |roundTo 1 x1 + roundTo 1 x2 + roundTo 1 x3 + roundTo 1 x4 + roundTo 1 x5 +
      roundTo 1 x6 + roundTo 1 x7 - 100| ≤ 7/20 := by
  have e1 := roundTo_one_err x1
  have e2 := roundTo_one_err x2
  have e3 := roundTo_one_err x3
  have e4 := roundTo_one_err x4
  have e5 := roundTo_one_err x5
  have e6 := roundTo_one_err x6
  have e7 := roundTo_one_err x7
  have key : roundTo 1 x1 + roundTo 1 x2 + roundTo 1 x3 + roundTo 1 x4 + roundTo 1 x5 +
      roundTo 1 x6 + roundTo 1 x7 - 100 =
      (roundTo 1 x1 - x1) + (roundTo 1 x2 - x2) + (roundTo 1 x3 - x3) + (roundTo 1 x4 - x4) +
      (roundTo 1 x5 - x5) + (roundTo 1 x6 - x6) + (roundTo 1 x7 - x7) := by
    rw [← h]
    ring
  rw [key]
  have b7 : |(roundTo 1 x1 - x1) + (roundTo 1 x2 - x2) + (roundTo 1 x3 - x3) +
      (roundTo 1 x4 - x4) + (roundTo 1 x5 - x5) + (roundTo 1 x6 - x6) + (roundTo 1 x7 - x7)| ≤
      |(roundTo 1 x1 - x1) + (roundTo 1 x2 - x2) + (roundTo 1 x3 - x3) + (roundTo 1 x4 - x4) +
        (roundTo 1 x5 - x5) + (roundTo 1 x6 - x6)| + |roundTo 1 x7 - x7| := abs_add _ _
  have b6 : |(roundTo 1 x1 - x1) + (roundTo 1 x2 - x2) + (roundTo 1 x3 - x3) +
      (roundTo 1 x4 - x4) + (roundTo 1 x5 - x5) + (roundTo 1 x6 - x6)| ≤
      |(roundTo 1 x1 - x1) + (roundTo 1 x2 - x2) + (roundTo 1 x3 - x3) + (roundTo 1 x4 - x4) +
        (roundTo 1 x5 - x5)| + |roundTo 1 x6 - x6| := abs_add _ _
  have b5 : |(roundTo 1 x1 - x1) + (roundTo 1 x2 - x2) + (roundTo 1 x3 - x3) +
      (roundTo 1 x4 - x4) + (roundTo 1 x5 - x5)| ≤
      |(roundTo 1 x1 - x1) + (roundTo 1 x2 - x2) + (roundTo 1 x3 - x3) + (roundTo 1 x4 - x4)| +
        |roundTo 1 x5 - x5| := abs_add _ _
  have b4 : |(roundTo 1 x1 - x1) + (roundTo 1 x2 - x2) + (roundTo 1 x3 - x3) +
      (roundTo 1 x4 - x4)| ≤
      |(roundTo 1 x1 - x1) + (roundTo 1 x2 - x2) + (roundTo 1 x3 - x3)| +
        |roundTo 1 x4 - x4| := abs_add _ _
  have b3 : |(roundTo 1 x1 - x1) + (roundTo 1 x2 - x2) + (roundTo 1 x3 - x3)| ≤
      |(roundTo 1 x1 - x1) + (roundTo 1 x2 - x2)| + |roundTo 1 x3 - x3| := abs_add _ _
  have b2 : |(roundTo 1 x1 - x1) + (roundTo 1 x2 - x2)| ≤
      |roundTo 1 x1 - x1| + |roundTo 1 x2 - x2| := abs_add _ _
  linarith

/-- The percentage-sum bound over arbitrary snapshots whose `total_ticks`
field is the sum of all ten tick fields (as every parsed snapshot's is). -/
theorem cpu_sum_bound (p c : CpuStatData)
    (hp : p.total_ticks = p.user + p.nice + p.system + p.idle + p.iowait + p.irq +
      p.softirq + p.steal + p.guest + p.guest_nice)
    (hc : c.total_ticks = c.user + c.nice + c.system + c.idle + c.iowait + c.irq +
      c.softirq + c.steal + c.guest + c.guest_nice)
    (hpos : 0 < c.total_ticks - p.total_ticks)
    (hsteal : c.steal = p.steal) (hguest : c.guest = p.guest)
    (hgn : c.guest_nice = p.guest_nice) :
    |(compute_cpu_percentages (some p) c).user.getD 0 +
      (compute_cpu_percentages (some p) c).nice.getD 0 +
      (compute_cpu_percentages (some p) c).system.getD 0 +
      (compute_cpu_percentages (some p) c).idle.getD 0 +
      (compute_cpu_percentages (some p) c).iowait.getD 0 +
      (compute_cpu_percentages (some p) c).irq.getD 0 +
      (compute_cpu_percentages (some p) c).softirq.getD 0 - 100| ≤ 7/20 := by
  have hu : (compute_cpu_percentages (some p) c).user =
      some (roundTo 1 (pctQ (c.user - p.user) (c.total_ticks - p.total_ticks))) := by
    simp only [compute_cpu_percentages, if_pos hpos]
  have hn : (compute_cpu_percentages (some p) c).nice =
      some (roundTo 1 (pctQ (c.nice - p.nice) (c.total_ticks - p.total_ticks))) := by
    simp only [compute_cpu_percentages, if_pos hpos]
  have hs : (compute_cpu_percentages (some p) c).system =
      some (roundTo 1 (pctQ (c.system - p.system) (c.total_ticks - p.total_ticks))) := by
    simp only [compute_cpu_percentages, if_pos hpos]
  have hi : (compute_cpu_percentages (some p) c).idle =
      some (roundTo 1 (pctQ (c.idle - p.idle) (c.total_ticks - p.total_ticks))) := by
    simp only [compute_cpu_percentages, if_pos hpos]
  have hw : (compute_cpu_percentages (some p) c).iowait =
      some (roundTo 1 (pctQ (c.iowait - p.iowait) (c.total_ticks - p.total_ticks))) := by
    simp only [compute_cpu_percentages, if_pos hpos]
  have hq : (compute_cpu_percentages (some p) c).irq =
      some (roundTo 1 (pctQ (c.irq - p.irq) (c.total_ticks - p.total_ticks))) := by
    simp only [compute_cpu_percentages, if_pos hpos]
  have hf : (compute_cpu_percentages (some p) c).softirq =
      some (roundTo 1 (pctQ (c.softirq - p.softirq) (c.total_ticks - p.total_ticks))) := by
    simp only [compute_cpu_percentages, if_pos hpos]
  rw [hu, hn, hs, hi, hw, hq, hf]
  simp only [Option.getD_some]
  apply abs_sum7_round_sub
  have hZ : (c.user - p.user) + (c.nice - p.nice) + (c.system - p.system) +
      (c.idle - p.idle) + (c.iowait - p.iowait) + (c.irq - p.irq) + (c.softirq - p.softirq) =
      c.total_ticks - p.total_ticks := by
    rw [hp, hc, hsteal, hguest, hgn]
    ring
  have hQ : ((c.user - p.user : ℤ) : ℚ) + ((c.nice - p.nice : ℤ) : ℚ) +
      ((c.system - p.system : ℤ) : ℚ) + ((c.idle - p.idle : ℤ) : ℚ) +
      ((c.iowait - p.iowait : ℤ) : ℚ) + ((c.irq - p.irq : ℤ) : ℚ) +
      ((c.softirq - p.softirq : ℤ) : ℚ) = ((c.total_ticks - p.total_ticks : ℤ) : ℚ) := by
    exact_mod_cast hZ
  have h0 : ((c.total_ticks - p.total_ticks : ℤ) : ℚ) ≠ 0 := by
    have hne : c.total_ticks - p.total_ticks ≠ 0 := hpos.ne'
    exact_mod_cast hne
  have expand : pctQ (c.user - p.user) (c.total_ticks - p.total_ticks) +
      pctQ (c.nice - p.nice) (c.total_ticks - p.total_ticks) +
      pctQ (c.system - p.system) (c.total_ticks - p.total_ticks) +
      pctQ (c.idle - p.idle) (c.total_ticks - p.total_ticks) +
      pctQ (c.iowait - p.iowait) (c.total_ticks - p.total_ticks) +
      pctQ (c.irq - p.irq) (c.total_ticks - p.total_ticks) +
      pctQ (c.softirq - p.softirq) (c.total_ticks - p.total_ticks) =
      (((c.user - p.user : ℤ) : ℚ) + ((c.nice - p.nice : ℤ) : ℚ) +
        ((c.system - p.system : ℤ) : ℚ) + ((c.idle - p.idle : ℤ) : ℚ) +
        ((c.iowait - p.iowait : ℤ) : ℚ) + ((c.irq - p.irq : ℤ) : ℚ) +
        ((c.softirq - p.softirq : ℤ) : ℚ)) / ((c.total_ticks - p.total_ticks : ℤ) : ℚ) *
          100 := by
    unfold pctQ
    ring
  rw [expand, hQ, div_self h0, one_mul]

/-- C10 counterexample: from the all-zero snapshot to user = 30, steal = 70
the total-tick delta is 100 > 0, yet the user+nice+system+idle+iowait+irq+
softirq percentages sum to 30, off from 100 by 70 — far beyond any rounding
tolerance — because each percentage divides by a total that still includes
the excluded steal/guest fields. -/
theorem C10_percent_sum_counterexample :
    (mk_cpu_stat_data [30, 0, 0, 0, 0, 0, 0, 70, 0, 0]).total_ticks -
        (mk_cpu_stat_data [0, 0, 0, 0, 0, 0, 0, 0, 0, 0]).total_ticks = 100 ∧
    (compute_cpu_percentages (some (mk_cpu_stat_data [0, 0, 0, 0, 0, 0, 0, 0, 0, 0]))
          (mk_cpu_stat_data [30, 0, 0, 0, 0, 0, 0, 70, 0, 0])).user.getD 0 +
        (compute_cpu_percentages (some (mk_cpu_stat_data [0, 0, 0, 0, 0, 0, 0, 0, 0, 0]))
          (mk_cpu_stat_data [30, 0, 0, 0, 0, 0, 0, 70, 0, 0])).nice.getD 0 +
        (compute_cpu_percentages (some (mk_cpu_stat_data [0, 0, 0, 0, 0, 0, 0, 0, 0, 0]))
          (mk_cpu_stat_data [30, 0, 0, 0, 0, 0, 0, 70, 0, 0])).system.getD 0 +
        (compute_cpu_percentages (some (mk_cpu_stat_data [0, 0, 0, 0, 0, 0, 0, 0, 0, 0]))
          (mk_cpu_stat_data [30, 0, 0, 0, 0, 0, 0, 70, 0, 0])).idle.getD 0 +
        (compute_cpu_percentages (some (mk_cpu_stat_data [0, 0, 0, 0, 0, 0, 0, 0, 0, 0]))
          (mk_cpu_stat_data [30, 0, 0, 0, 0, 0, 0, 70, 0, 0])).iowait.getD 0 +
        (compute_cpu_percentages (some (mk_cpu_stat_data [0, 0, 0, 0, 0, 0, 0, 0, 0, 0]))
          (mk_cpu_stat_data [30, 0, 0, 0, 0, 0, 0, 70, 0, 0])).irq.getD 0 +
        (compute_cpu_percentages (some (mk_cpu_stat_data [0, 0, 0, 0, 0, 0, 0, 0, 0, 0]))
          (mk_cpu_stat_data [30, 0, 0, 0, 0, 0, 0, 70, 0, 0])).softirq.getD 0 = 30 ∧
    ¬ (|(30 : ℚ) - 100| ≤ 1/2) := by
  refine ⟨by decide, by decide, by decide⟩

/-- C10 (amended): whenever the total-tick delta between two parsed CPU
snapshots is positive and the steal, guest and guest_nice counters did not
move, the computed user, nice, system, idle, iowait, irq and softirq
percentages sum to 100 up to rounding tolerance (each of the seven roundings
moves its term by at most 0.05, so the sum is within 0.35 of 100). -/
theorem C10_percent_sum_amended (rawP rawC : List ℤ)
    (hpos : 0 < (mk_cpu_stat_data rawC).total_ticks - (mk_cpu_stat_data rawP).total_ticks)
    (hsteal : (mk_cpu_stat_data rawC).steal = (mk_cpu_stat_data rawP).steal)
    (hguest : (mk_cpu_stat_data rawC).guest = (mk_cpu_stat_data rawP).guest)
    (hgn : (mk_cpu_stat_data rawC).guest_nice = (mk_cpu_stat_data rawP).guest_nice) :
    |(compute_cpu_percentages (some (mk_cpu_stat_data rawP)) (mk_cpu_stat_data rawC)).user.getD 0 +
      (compute_cpu_percentages (some (mk_cpu_stat_data rawP)) (mk_cpu_stat_data rawC)).nice.getD 0 +
      (compute_cpu_percentages (some (mk_cpu_stat_data rawP)) (mk_cpu_stat_data rawC)).system.getD 0 +
      (compute_cpu_percentages (some (mk_cpu_stat_data rawP)) (mk_cpu_stat_data rawC)).idle.getD 0 +
      (compute_cpu_percentages (some (mk_cpu_stat_data rawP)) (mk_cpu_stat_data rawC)).iowait.getD 0 +
      (compute_cpu_percentages (some (mk_cpu_stat_data rawP)) (mk_cpu_stat_data rawC)).irq.getD 0 +
      (compute_cpu_percentages (some (mk_cpu_stat_data rawP)) (mk_cpu_stat_data rawC)).softirq.getD 0 -
      100| ≤ 7/20 :=
  cpu_sum_bound (mk_cpu_stat_data rawP) (mk_cpu_stat_data rawC) rfl rfl hpos hsteal hguest hgn

/-- Witness for C10: from the all-zero snapshot to ten ticks in each of the
seven counted fields (delta 70, all excluded deltas zero); each percentage
rounds to 14.3 and the sum 100.1 lies within the tolerance. -/
theorem C10_percent_sum_amended_witness :
    (0 < (mk_cpu_stat_data [10, 10, 10, 10, 10, 10, 10, 0, 0, 0]).total_ticks -
        (mk_cpu_stat_data [0, 0, 0, 0, 0, 0, 0, 0, 0, 0]).total_ticks) ∧
    |(compute_cpu_percentages (some (mk_cpu_stat_data [0, 0, 0, 0, 0, 0, 0, 0, 0, 0]))
        (mk_cpu_stat_data [10, 10, 10, 10, 10, 10, 10, 0, 0, 0])).user.getD 0 +
      (compute_cpu_percentages (some (mk_cpu_stat_data [0, 0, 0, 0, 0, 0, 0, 0, 0, 0]))
        (mk_cpu_stat_data [10, 10, 10, 10, 10, 10, 10, 0, 0, 0])).nice.getD 0 +
      (compute_cpu_percentages (some (mk_cpu_stat_data [0, 0, 0, 0, 0, 0, 0, 0, 0, 0]))
        (mk_cpu_stat_data [10, 10, 10, 10, 10, 10, 10, 0, 0, 0])).system.getD 0 +
      (compute_cpu_percentages (some (mk_cpu_stat_data [0, 0, 0, 0, 0, 0, 0, 0, 0, 0]))
        (mk_cpu_stat_data [10, 10, 10, 10, 10, 10, 10, 0, 0, 0])).idle.getD 0 +
      (compute_cpu_percentages (some (mk_cpu_stat_data [0, 0, 0, 0, 0, 0, 0, 0, 0, 0]))
        (mk_cpu_stat_data [10, 10, 10, 10, 10, 10, 10, 0, 0, 0])).iowait.getD 0 +
      (compute_cpu_percentages (some (mk_cpu_stat_data [0, 0, 0, 0, 0, 0, 0, 0, 0, 0]))
        (mk_cpu_stat_data [10, 10, 10, 10, 10, 10, 10, 0, 0, 0])).irq.getD 0 +
      (compute_cpu_percentages (some (mk_cpu_stat_data [0, 0, 0, 0, 0, 0, 0, 0, 0, 0]))
        (mk_cpu_stat_data [10, 10, 10, 10, 10, 10, 10, 0, 0, 0])).softirq.getD 0 -
      100| ≤ 7/20 :=
  ⟨by decide,
   C10_percent_sum_amended [0, 0, 0, 0, 0, 0, 0, 0, 0, 0]
     [10, 10, 10, 10, 10, 10, 10, 0, 0, 0] (by decide) (by decide) (by decide) (by decide)⟩
